import Mathlib

/-!
Shallow embedding of the memes-api token-credit coordinator
(services/token_service.go, main.go) and proofs about it.

The token service is modelled as explicit state passing: the database
(clients table and token_transactions ledger), the Redis cache, the log of
cache Set calls, and the repair channel are the fields of a State record.
Store I/O failures are injected through an explicit Faults record: each
flag says whether the corresponding store call fails on this invocation.
The asynchronous goroutine of DeductTokens is modelled as running to
completion after the synchronous part returns (interleaving-free
executions), so its effect lands in the returned state but never in the
returned result.
-/

set_option autoImplicit false

namespace MaasService

/-- Go constant TokenCost = 1 (cost of one metered call). -/
def TokenCost : Int := 1

/-- Go constant RedisKeyPrefix = "token_balance:". -/
def RedisKeyPrefix : String := "token_balance:"

/-- Go constant RedisCacheTTL = 24 * time.Hour, in nanoseconds
(Go time.Duration units). -/
def RedisCacheTTL : Nat := 24 * 3600 * 1000000000

/-- Errors a TokenService operation can return. insufficientTokens is
ErrInsufficientTokens; redisNil is the redis.Nil cache-miss error;
cacheUnavailable / dbUnavailable are transport failures of the respective
store. -/
inductive TsError where
  | insufficientTokens
  | redisNil
  | cacheUnavailable
  | dbUnavailable
  deriving DecidableEq, Repr

/-- One row of the token_transactions ledger table. -/
structure Txn where
  clientId : Nat
  amount : Int
  txnType : String
  deriving DecidableEq, Repr

/-- One Redis Set call: key, value and the TTL it was issued with. -/
structure CacheWrite where
  key : String
  value : Int
  ttl : Nat
  deriving DecidableEq, Repr

/-- The state the service operates on: the clients table (id, auth_token),
the append-only ledger, the Redis cache contents, the history of cache Set
calls, and the contents of the refreshChan repair queue. -/
structure State where
  clients : List (Nat × String)
  txns : List Txn
  cache : List (String × Int)
  writes : List CacheWrite
  pendingRepairs : List String
  deriving DecidableEq, Repr

/-- Fault injection for one operation: whether each kind of store call
fails when the operation performs it. -/
structure Faults where
  cacheGetFail : Bool
  cacheSetFail : Bool
  dbExecFail : Bool
  dbQueryFail : Bool
  asyncDbExecFail : Bool
  deriving DecidableEq, Repr

/-- All store calls succeed. -/
def noFaults : Faults :=
  { cacheGetFail := false, cacheSetFail := false, dbExecFail := false,
    dbQueryFail := false, asyncDbExecFail := false }

/-- Redis GET on the cache contents. -/
def cacheLookup (c : List (String × Int)) (k : String) : Option Int :=
  (c.find? (fun e => e.1 == k)).map (fun e => e.2)

/-- Redis SET: overwrite any existing entry for the key. -/
def cacheSet (c : List (String × Int)) (k : String) (v : Int) :
    List (String × Int) :=
  (k, v) :: c.filter (fun e => !(e.1 == k))

/-- SELECT id FROM clients WHERE auth_token = tok (auth_token is UNIQUE). -/
def lookupClient (clients : List (Nat × String)) (tok : String) : Option Nat :=
  (clients.find? (fun c => c.2 == tok)).map (fun c => c.1)

/-- The signed contribution of one ledger row to the balance, exactly as in
the SQL of refreshBalance:
CASE WHEN transaction_type = PURCHASE THEN amount ELSE -amount END. -/
def txnContribution (t : Txn) : Int :=
  if t.txnType = "PURCHASE" then t.amount else -t.amount

/-- The balance aggregation query of refreshBalance: sum of contributions
over the rows whose client_id matches the client with the given auth token;
COALESCE(-, 0) makes the empty sum (including the unknown-client case,
where the id subquery yields NULL and no row matches) evaluate to 0. -/
def computeBalance (st : State) (tok : String) : Int :=
  match lookupClient st.clients tok with
  | none => 0
  | some cid =>
      ((st.txns.filter (fun t => t.clientId == cid)).map txnContribution).sum

/-- getBalanceFromCache: Redis GET on RedisKeyPrefix + token; a missing key
is the redis.Nil error. -/
def getBalanceFromCache (st : State) (tok : String) (f : Faults) :
    Except TsError Int :=
  if f.cacheGetFail then .error .cacheUnavailable
  else
    match cacheLookup st.cache ( RedisKeyPrefix ++ tok) with
    | some v => .ok v
    | none => .error .redisNil

/-- updateBalanceInCache: Redis SET of the balance under
RedisKeyPrefix + token with TTL RedisCacheTTL; the Set call is also
appended to the write log. -/
def updateBalanceInCache (st : State) (tok : String) (balance : Int)
    (f : Faults) : Except TsError State :=
  if f.cacheSetFail then .error .cacheUnavailable
  else .ok { st with
    cache := cacheSet st.cache ( RedisKeyPrefix ++ tok) balance,
    writes := st.writes ++ [⟨ RedisKeyPrefix ++ tok, balance, RedisCacheTTL⟩] }

/-- refreshBalance: recompute the balance from the ledger and write it to
the cache. -/
def refreshBalance (st : State) (tok : String) (f : Faults) :
    Except TsError State :=
  if f.dbQueryFail then .error .dbUnavailable
  else updateBalanceInCache st tok (computeBalance st tok) f

/-- recordTransaction: INSERT INTO token_transactions SELECT id, amount,
type FROM clients WHERE auth_token = tok. When no client matches, zero rows
are inserted and the Exec still succeeds. -/
def recordTransaction (st : State) (tok : String) (amount : Int)
    (txnType : String) (fail : Bool) : Except TsError State :=
  if fail then .error .dbUnavailable
  else .ok { st with
    txns := st.txns ++
      (match lookupClient st.clients tok with
       | some cid => [⟨cid, amount, txnType⟩]
       | none => []) }

/-- DeductTokens: read the cached balance (any error, including the
redis.Nil miss, is returned as-is), fail with insufficientTokens below the
cost, optimistically write balance - TokenCost to the cache, then return
success; the USAGE record (with amount -TokenCost) runs as a goroutine,
modelled here as completing after the return: on its failure the token is
pushed onto the repair channel and success is still what the caller saw. -/
def DeductTokens (st : State) (tok : String) (f : Faults) :
    Except TsError Unit × State :=
  match getBalanceFromCache st tok f with
  | .error e => (.error e, st)
  | .ok balance =>
    if balance < TokenCost then (.error .insufficientTokens, st)
    else
      match updateBalanceInCache st tok (balance - TokenCost) f with
      | .error e => (.error e, st)
      | .ok st1 =>
        match recordTransaction st1 tok (- TokenCost) "USAGE"
            f.asyncDbExecFail with
        | .ok st2 => (.ok (), st2)
        | .error _ =>
            (.ok (), { st1 with pendingRepairs := st1.pendingRepairs ++ [tok] })

/-- AddTokens: record a PURCHASE transaction of the given amount, then
refresh the cache from the ledger. -/
def AddTokens (st : State) (tok : String) (amount : Int) (f : Faults) :
    Except TsError Unit × State :=
  match recordTransaction st tok amount "PURCHASE" f.dbExecFail with
  | .error e => (.error e, st)
  | .ok st1 =>
    match refreshBalance st1 tok f with
    | .error e => (.error e, st1)
    | .ok st2 => (.ok (), st2)

/-- GetBalance: read the cache; on the redis.Nil miss refresh from the
ledger and re-read; any other error is returned. -/
def GetBalance (st : State) (tok : String) (f : Faults) :
    Except TsError Int × State :=
  match getBalanceFromCache st tok f with
  | .ok balance => (.ok balance, st)
  | .error e =>
    if e = .redisNil then
      match refreshBalance st tok f with
      | .error e2 => (.error e2, st)
      | .ok st1 =>
        match getBalanceFromCache st1 tok f with
        | .ok b => (.ok b, st1)
        | .error e3 => (.error e3, st1)
    else (.error e, st)

/-- One iteration of backgroundCacheRefresh (the Repair Worker): refresh
the balance for a dequeued token; a failure is only logged, the state is
left as it was. -/
def repairOne (st : State) (tok : String) (f : Faults) : State :=
  match refreshBalance st tok f with
  | .ok st1 => st1
  | .error _ => st

section MemeGeneration

/-- The JSON Meme returned by the /memes endpoint (main.go). Coordinates
are modelled as rationals: the claims proved here compare them only with
the exact value 0, which float64 represents exactly. -/
structure Meme where
  id : Nat
  title : String
  url : String
  query : String
  lat : Rat
  lon : Rat
  deriving DecidableEq, Repr

/-- One entry of the hard-coded meme catalog in generateMeme. -/
structure CatalogEntry where
  title : String
  url : String
  memeLat : Rat
  memeLon : Rat
  deriving DecidableEq, Repr

/-- The four hard-coded memes of generateMeme, coordinates as exact
decimals. -/
def memeCatalog : List CatalogEntry :=
  [ ⟨"When you realize it's Monday again...",
     "https://example.com/meme1.jpg", 407128/10000, -740060/10000⟩,
    ⟨"Coding at 2am be like...",
     "https://example.com/meme2.jpg", 515074/10000, -1278/10000⟩,
    ⟨"How it feels to fix a bug",
     "https://example.com/meme3.jpg", 356762/10000, 1396503/10000⟩,
    ⟨"That moment when your code compiles on the first try",
     "https://example.com/meme4.jpg", -338688/10000, 1512093/10000⟩ ]

/-- Go constant maxDistance = 5000.0 kilometers. -/
def maxDistance : Rat := 5000

/-- strings.Contains(s, t) for the nonempty patterns used here: splitting
on an occurring separator yields more than one part. -/
def containsSubstring (s t : String) : Bool :=
  (s.splitOn t).length != 1

/-- generateMeme from main.go. The Haversine computation
(calculateDistance) runs on float64 and is abstracted as the dist
parameter; rid and pick are the two rand.Intn draws (the Go id is
rand.Intn 1000 and the selection index rand.Intn len, modelled by taking
the draws modulo the bounds). The filter keeps an entry when the query
matches its title (or is empty) and the location matches: either both
coordinates are zero (no location given) or both are nonzero and the
distance is within maxDistance. With no match the zero-value Meme carrying
only query, lat and lon is returned. -/
def generateMeme (dist : Rat → Rat → Rat → Rat → Rat) (rid pick : Nat)
    (query : String) (lat lon : Rat) : Meme :=
  let filtered := memeCatalog.filter (fun m =>
    (query == "" || containsSubstring m.title.toLower query.toLower) &&
    ((lat == 0 && lon == 0) ||
     (lat != 0 && lon != 0 &&
       decide (dist lat lon m.memeLat m.memeLon ≤ maxDistance))))
  match filtered with
  | [] => { id := 0, title := "", url := "", query := query, lat := lat, lon := lon }
  | m0 :: rest =>
    let chosen := (m0 :: rest).get
      ⟨pick % (m0 :: rest).length, Nat.mod_lt _ (Nat.succ_pos rest.length)⟩
    { id := rid % 1000, title := chosen.title, url := chosen.url,
      query := query, lat := lat, lon := lon }

end MemeGeneration

section ConcreteStates

/-- A state with one registered client tok1 (id 1) and nothing recorded. -/
def oneClientSt : State :=
  { clients := [(1, "tok1")], txns := [], cache := [], writes := [],
    pendingRepairs := [] }

/-- A state with no clients at all. -/
def noClientSt : State :=
  { clients := [], txns := [], cache := [], writes := [],
    pendingRepairs := [] }

/-- Client tok1 with a durable PURCHASE of 5 and a cold (empty) cache. -/
def coldCacheSt : State :=
  { clients := [(1, "tok1")], txns := [⟨1, 5, "PURCHASE"⟩], cache := [],
    writes := [], pendingRepairs := [] }

/-- Client tok1 with a durable PURCHASE of 5 already cached. -/
def warmCacheSt : State :=
  { clients := [(1, "tok1")], txns := [⟨1, 5, "PURCHASE"⟩],
    cache := [("token_balance:tok1", 5)], writes := [], pendingRepairs := [] }

/-- Client tok1 with a cached balance of 0. -/
def zeroCacheSt : State :=
  { clients := [(1, "tok1")], txns := [], cache := [("token_balance:tok1", 0)],
    writes := [], pendingRepairs := [] }

/-- Faults where only the asynchronous USAGE insert fails. -/
def asyncFailFaults : Faults :=
  { cacheGetFail := false, cacheSetFail := false, dbExecFail := false,
    dbQueryFail := false, asyncDbExecFail := true }

/-- Faults where only the synchronous ledger insert fails. -/
def dbExecFailFaults : Faults :=
  { cacheGetFail := false, cacheSetFail := false, dbExecFail := true,
    dbQueryFail := false, asyncDbExecFail := false }

end ConcreteStates

/-!
Helper lemmas shared by the claim theorems.
-/

theorem cacheLookup_set_self (c : List (String × Int)) (k : String) (v : Int) :
    cacheLookup (cacheSet c k v) k = some v := by
  simp [cacheLookup, cacheSet, List.find?]

theorem cacheSet_idem (c : List (String × Int)) (k : String) (v : Int) :
    cacheSet (cacheSet c k v) k v = cacheSet c k v := by
  simp [cacheSet, List.filter_filter]

theorem updateBalanceInCache_ok (st : State) (tok : String) (b : Int)
    (f : Faults) (st' : State)
    (h : updateBalanceInCache st tok b f = .ok st') :
    st' = { st with
      cache := cacheSet st.cache ( RedisKeyPrefix ++ tok) b,
      writes := st.writes ++ [⟨ RedisKeyPrefix ++ tok, b, RedisCacheTTL⟩] } := by
  unfold updateBalanceInCache at h
  by_cases hf : f.cacheSetFail = true
  · simp [hf] at h
  · simp [hf] at h
    exact h.symm

theorem computeBalance_congr (st st' : State) (tok : String)
    (hc : st'.clients = st.clients) (ht : st'.txns = st.txns) :
    computeBalance st' tok = computeBalance st tok := by
  unfold computeBalance
  rw [hc, ht]

theorem getBalanceFromCache_congrF (st : State) (tok : String) (f g : Faults)
    (h : f.cacheGetFail = g.cacheGetFail) :
    getBalanceFromCache st tok f = getBalanceFromCache st tok g := by
  unfold getBalanceFromCache
  rw [h]

theorem updateBalanceInCache_congrF (st : State) (tok : String) (b : Int)
    (f g : Faults) (h : f.cacheSetFail = g.cacheSetFail) :
    updateBalanceInCache st tok b f = updateBalanceInCache st tok b g := by
  unfold updateBalanceInCache
  rw [h]

/-- C1: the spec claims that after AddTokens(id, n) and k durable
deductions the ledger-derived balance is n - k with every recorded USAGE
magnitude positive. The code records USAGE rows with amount -TokenCost
while the aggregation query negates USAGE amounts a second time, so one
durable deduction after AddTokens(tok1, 100) leaves a USAGE row of
magnitude -1 and a refreshBalance-derived balance of 101, not 99: the code
contradicts the documented ledger formula (and it is the code, not the
spec, that is wrong - deducting a token must not increase the balance). -/
theorem C1_usage_sign_bug :
    (AddTokens oneClientSt "tok1" 100 noFaults).1 = .ok () ∧
    (DeductTokens (AddTokens oneClientSt "tok1" 100 noFaults).2 "tok1"
      noFaults).1 = .ok () ∧
    (DeductTokens (AddTokens oneClientSt "tok1" 100 noFaults).2 "tok1"
      noFaults).2.txns = [⟨1, 100, "PURCHASE"⟩, ⟨1, -1, "USAGE"⟩] ∧
    computeBalance (DeductTokens (AddTokens oneClientSt "tok1" 100
      noFaults).2 "tok1" noFaults).2 "tok1" = 101 := by
  exact ⟨rfl, rfl, rfl, rfl⟩

/-- C2: the spec claims GetBalance and AddTokens fail with the
client-not-found error when no client matches the identity. In the code
both SQL statements silently match zero rows: GetBalance for an unknown
token succeeds returning 0 (after caching 0), and AddTokens succeeds while
recording no transaction at all - even though ErrInvalidToken is declared
and handled by the HTTP middleware, no path ever returns it. -/
theorem C2_unknown_client_not_rejected :
    (GetBalance noClientSt "no-such-token" noFaults).1 = .ok 0 ∧
    (AddTokens noClientSt "no-such-token" 5 noFaults).1 = .ok () ∧
    (AddTokens noClientSt "no-such-token" 5 noFaults).2.txns = [] := by
  exact ⟨rfl, rfl, rfl⟩

/-- C3 counterexample: with a cold cache and a client whose ledger balance
is 5, GetBalance returns 5 (it refreshes on the redis.Nil miss), but
DeductTokens returns the redis.Nil error unchanged and leaves the state
untouched - it does not obtain the balance via the same path as
GetBalance. -/
theorem C3_cold_cache_deduct_fails :
    (GetBalance coldCacheSt "tok1" noFaults).1 = .ok 5 ∧
    DeductTokens coldCacheSt "tok1" noFaults = (.error .redisNil, coldCacheSt) := by
  exact ⟨rfl, rfl⟩

/-- C3 amended: on a cache hit DeductTokens observes exactly the balance
GetBalance would return; on a cache miss (redis.Nil) DeductTokens does not
take the GetBalance refresh path but returns the redis.Nil error with the
state untouched. -/
theorem C3_deduct_matches_getbalance_on_hit (st : State) (tok : String)
    (f : Faults) :
    (∀ b : Int, getBalanceFromCache st tok f = .ok b →
      (GetBalance st tok f).1 = .ok b) ∧
    (getBalanceFromCache st tok f = .error .redisNil →
      DeductTokens st tok f = (.error .redisNil, st)) := by
  constructor
  · intro b h
    unfold GetBalance
    rw [h]
  · intro h
    unfold DeductTokens
    rw [h]

/-- C3 witness: the amended theorem applied at warmCacheSt (a hit on
balance 5) and at coldCacheSt (a miss). -/
theorem C3_deduct_matches_getbalance_on_hit_witness :
    (GetBalance warmCacheSt "tok1" noFaults).1 = .ok 5 ∧
    DeductTokens coldCacheSt "tok2" noFaults = (.error .redisNil, coldCacheSt) :=
  ⟨(C3_deduct_matches_getbalance_on_hit warmCacheSt "tok1" noFaults).1 5 rfl,
   (C3_deduct_matches_getbalance_on_hit coldCacheSt "tok2" noFaults).2 rfl⟩

/-- C4: the caller-visible result of DeductTokens is decided solely by the
cache read, the balance comparison and the synchronous cache write:
success iff the read yields a balance of at least TokenCost and the cache
write succeeds; the result is invariant under every fault configuration
that agrees on the cache read and write flags (in particular under failure
of the asynchronous USAGE insert); and when the asynchronous insert fails
after a successful deduction the identity is enqueued for repair. -/
theorem C4_result_depends_only_on_cache_path (st : State) (tok : String)
    (f : Faults) :
    ((DeductTokens st tok f).1 = .ok () ↔
      ∃ b : Int, getBalanceFromCache st tok f = .ok b ∧ TokenCost ≤ b ∧
        f.cacheSetFail = false) ∧
    (∀ g : Faults, f.cacheGetFail = g.cacheGetFail →
      f.cacheSetFail = g.cacheSetFail →
      (DeductTokens st tok f).1 = (DeductTokens st tok g).1) ∧
    (f.asyncDbExecFail = true → (DeductTokens st tok f).1 = .ok () →
      (DeductTokens st tok f).2.pendingRepairs = st.pendingRepairs ++ [tok]) := by
  refine ⟨⟨?_, ?_⟩, ?_, ?_⟩
  · intro h
    unfold DeductTokens at h
    cases hg : getBalanceFromCache st tok f with
    | error e => rw [hg] at h; simp at h
    | ok b =>
      rw [hg] at h
      by_cases hb : b < TokenCost
      · simp [hb] at h
      · refine ⟨b, rfl, not_lt.mp hb, ?_⟩
        by_cases hs : f.cacheSetFail = true
        · simp [hb, updateBalanceInCache, hs] at h
        · simpa using hs
  · rintro ⟨b, hg, hle, hs⟩
    unfold DeductTokens
    rw [hg]
    simp only [if_neg (not_lt.mpr hle)]
    simp [updateBalanceInCache, hs, recordTransaction]
    cases hA : f.asyncDbExecFail <;> simp
  · intro g hget hset
    unfold DeductTokens
    rw [getBalanceFromCache_congrF st tok f g hget]
    cases hg : getBalanceFromCache st tok g with
    | error e => rfl
    | ok b =>
      by_cases hb : b < TokenCost
      · simp [hb]
      · simp only [if_neg hb]
        rw [updateBalanceInCache_congrF st tok (b - TokenCost) f g hset]
        cases hu : updateBalanceInCache st tok (b - TokenCost) g with
        | error e => rfl
        | ok st1 =>
          cases hf : f.asyncDbExecFail <;> cases hgg : g.asyncDbExecFail <;>
            simp [recordTransaction, hf, hgg]
  · intro hA hok
    unfold DeductTokens at hok ⊢
    cases hg : getBalanceFromCache st tok f with
    | error e => rw [hg] at hok; simp at hok
    | ok b =>
      rw [hg] at hok
      by_cases hb : b < TokenCost
      · simp [hb] at hok
      · simp only [if_neg hb] at hok ⊢
        cases hu : updateBalanceInCache st tok (b - TokenCost) f with
        | error e => rw [hu] at hok; simp at hok
        | ok st1 =>
          simp [recordTransaction, hA]
          have h1 := updateBalanceInCache_ok st tok (b - TokenCost) f st1 hu
          rw [h1]

/-- C4 witness: at warmCacheSt (cached balance 5) a fault-free deduction
succeeds by the iff, and with only the asynchronous insert failing the
identity lands on the repair queue. -/
theorem C4_result_depends_only_on_cache_path_witness :
    (DeductTokens warmCacheSt "tok1" noFaults).1 = .ok () ∧
    (DeductTokens warmCacheSt "tok1" asyncFailFaults).2.pendingRepairs =
      warmCacheSt.pendingRepairs ++ ["tok1"] :=
  ⟨(C4_result_depends_only_on_cache_path warmCacheSt "tok1" noFaults).1.mpr
      ⟨5, rfl, by decide, rfl⟩,
   (C4_result_depends_only_on_cache_path warmCacheSt "tok1" asyncFailFaults).2.2
      rfl rfl⟩

/-- C5: when the observed cached balance is below TokenCost, DeductTokens
returns insufficientTokens and returns the state completely unchanged: no
cache write and no USAGE record. -/
theorem C5_insufficient_leaves_state_unchanged (st : State) (tok : String)
    (f : Faults) (b : Int) (hb : getBalanceFromCache st tok f = .ok b)
    (hlt : b < TokenCost) :
    DeductTokens st tok f = (.error .insufficientTokens, st) := by
  unfold DeductTokens
  rw [hb]
  simp [hlt]

/-- C5 witness: the theorem applied at zeroCacheSt (cached balance 0). -/
theorem C5_insufficient_leaves_state_unchanged_witness :
    DeductTokens zeroCacheSt "tok1" noFaults =
      (.error .insufficientTokens, zeroCacheSt) :=
  C5_insufficient_leaves_state_unchanged zeroCacheSt "tok1" noFaults 0 rfl
    (by decide)

theorem recordTransaction_ok (st : State) (tok : String) (a : Int)
    (ty : String) (fail : Bool) (st' : State)
    (h : recordTransaction st tok a ty fail = .ok st') :
    st' = { st with txns := st.txns ++
      (match lookupClient st.clients tok with
       | some cid => [⟨cid, a, ty⟩]
       | none => []) } := by
  unfold recordTransaction at h
  cases fail with
  | true => simp at h
  | false => simp at h; exact h.symm

theorem refreshBalance_ok (st : State) (tok : String) (f : Faults)
    (st' : State) (h : refreshBalance st tok f = .ok st') :
    st' = { st with
      cache := cacheSet st.cache ( RedisKeyPrefix ++ tok) (computeBalance st tok),
      writes := st.writes ++
        [⟨ RedisKeyPrefix ++ tok, computeBalance st tok, RedisCacheTTL⟩] } := by
  unfold refreshBalance at h
  cases hq : f.dbQueryFail with
  | true => rw [hq] at h; simp at h
  | false =>
    rw [hq] at h
    simp only [Bool.false_eq_true, if_false] at h
    exact updateBalanceInCache_ok st tok (computeBalance st tok) f st' h

/-- C6: the durable PURCHASE append comes before any cache mutation: if
the append fails, AddTokens returns the store error with the whole state
(in particular the cache) unchanged; and whenever AddTokens has changed
the cache at all, the cached entry for the identity equals the balance
recomputed over the final ledger, which already contains the appended
purchase - no reader can observe a cached balance reflecting a purchase
that was not durably recorded. -/
theorem C6_purchase_durable_before_cache (st : State) (tok : String)
    (amt : Int) (f : Faults) :
    (f.dbExecFail = true →
      AddTokens st tok amt f = (.error .dbUnavailable, st)) ∧
    ((AddTokens st tok amt f).2.cache ≠ st.cache →
      cacheLookup (AddTokens st tok amt f).2.cache ( RedisKeyPrefix ++ tok)
        = some (computeBalance (AddTokens st tok amt f).2 tok)) := by
  constructor
  · intro h
    unfold AddTokens
    simp [recordTransaction, h]
  · intro hne
    unfold AddTokens at hne ⊢
    cases hr : recordTransaction st tok amt "PURCHASE" f.dbExecFail with
    | error e => rw [hr] at hne; simp at hne
    | ok st1 =>
      rw [hr] at hne
      dsimp only at hne ⊢
      cases hf : refreshBalance st1 tok f with
      | error e =>
        rw [hf] at hne
        have h1 := recordTransaction_ok st tok amt "PURCHASE" f.dbExecFail st1 hr
        rw [h1] at hne
        simp at hne
      | ok st2 =>
        rw [hf] at hne
        have h2 := refreshBalance_ok st1 tok f st2 hf
        have hcl : st2.clients = st1.clients := by rw [h2]
        have htx : st2.txns = st1.txns := by rw [h2]
        rw [computeBalance_congr st1 st2 tok hcl htx]
        rw [h2]
        exact cacheLookup_set_self st1.cache ( RedisKeyPrefix ++ tok)
          (computeBalance st1 tok)

/-- C6 witness: with a failing ledger insert AddTokens fails leaving
oneClientSt untouched; a fault-free AddTokens of 100 changes the cache,
and the theorem then pins the cached entry to the final ledger balance. -/
theorem C6_purchase_durable_before_cache_witness :
    AddTokens oneClientSt "tok1" 7 dbExecFailFaults =
      (.error .dbUnavailable, oneClientSt) ∧
    cacheLookup (AddTokens oneClientSt "tok1" 100 noFaults).2.cache
        ( RedisKeyPrefix ++ "tok1")
      = some (computeBalance (AddTokens oneClientSt "tok1" 100 noFaults).2
          "tok1") :=
  ⟨(C6_purchase_durable_before_cache oneClientSt "tok1" 7 dbExecFailFaults).1
      rfl,
   (C6_purchase_durable_before_cache oneClientSt "tok1" 100 noFaults).2
      (by decide)⟩

/-- C7: repair is idempotent. For any state, refreshing with no faults
succeeds, installs exactly the ledger-derived balance (ComputeBalance)
under the cache key, and a second refresh with no intervening ledger
change succeeds and leaves the cache identical. -/
theorem C7_repair_idempotent (st : State) (tok : String) :
    ∃ st1 st2, refreshBalance st tok noFaults = .ok st1 ∧
      refreshBalance st1 tok noFaults = .ok st2 ∧
      cacheLookup st1.cache ( RedisKeyPrefix ++ tok)
        = some (computeBalance st tok) ∧
      st2.cache = st1.cache := by
  refine ⟨_, _, rfl, rfl, ?_, ?_⟩
  · exact cacheLookup_set_self st.cache ( RedisKeyPrefix ++ tok)
      (computeBalance st tok)
  · show cacheSet _ _ _ = _
    have h1 : computeBalance
        { st with
          cache := cacheSet st.cache ( RedisKeyPrefix ++ tok)
            (computeBalance st tok),
          writes := st.writes ++
            [⟨ RedisKeyPrefix ++ tok, computeBalance st tok, RedisCacheTTL⟩] }
        tok = computeBalance st tok :=
      computeBalance_congr st _ tok rfl rfl
    rw [h1, cacheSet_idem]

theorem writes_mem_append (old : List CacheWrite) (tok : String) (v : Int)
    (w : CacheWrite)
    (h : w ∈ old ++ [(⟨ RedisKeyPrefix ++ tok, v, RedisCacheTTL⟩ : CacheWrite)]) :
    w ∈ old ∨ (w.key = RedisKeyPrefix ++ tok ∧ w.ttl = RedisCacheTTL) := by
  rcases List.mem_append.mp h with h1 | h1
  · exact Or.inl h1
  · have h2 := List.mem_singleton.mp h1
    subst h2
    exact Or.inr ⟨rfl, rfl⟩

theorem DeductTokens_writes (st : State) (tok : String) (f : Faults)
    (w : CacheWrite) (h : w ∈ (DeductTokens st tok f).2.writes) :
    w ∈ st.writes ∨ (w.key = RedisKeyPrefix ++ tok ∧ w.ttl = RedisCacheTTL) := by
  unfold DeductTokens at h
  cases hg : getBalanceFromCache st tok f with
  | error e => rw [hg] at h; exact Or.inl h
  | ok b =>
    rw [hg] at h
    dsimp only at h
    by_cases hb : b < TokenCost
    · rw [if_pos hb] at h
      exact Or.inl h
    · rw [if_neg hb] at h
      cases hu : updateBalanceInCache st tok (b - TokenCost) f with
      | error e => rw [hu] at h; exact Or.inl h
      | ok st1 =>
        rw [hu] at h
        dsimp only at h
        have e1 := updateBalanceInCache_ok st tok (b - TokenCost) f st1 hu
        cases hrec : recordTransaction st1 tok (- TokenCost) "USAGE"
            f.asyncDbExecFail with
        | ok st2 =>
          rw [hrec] at h
          have e2 := recordTransaction_ok st1 tok (- TokenCost) "USAGE"
            f.asyncDbExecFail st2 hrec
          rw [e2, e1] at h
          exact writes_mem_append st.writes tok (b - TokenCost) w h
        | error e =>
          rw [hrec] at h
          rw [e1] at h
          exact writes_mem_append st.writes tok (b - TokenCost) w h

theorem AddTokens_writes (st : State) (tok : String) (amt : Int) (f : Faults)
    (w : CacheWrite) (h : w ∈ (AddTokens st tok amt f).2.writes) :
    w ∈ st.writes ∨ (w.key = RedisKeyPrefix ++ tok ∧ w.ttl = RedisCacheTTL) := by
  unfold AddTokens at h
  cases hr : recordTransaction st tok amt "PURCHASE" f.dbExecFail with
  | error e => rw [hr] at h; exact Or.inl h
  | ok st1 =>
    rw [hr] at h
    dsimp only at h
    have e1 := recordTransaction_ok st tok amt "PURCHASE" f.dbExecFail st1 hr
    cases hf : refreshBalance st1 tok f with
    | error e =>
      rw [hf] at h
      rw [e1] at h
      exact Or.inl h
    | ok st2 =>
      rw [hf] at h
      have e2 := refreshBalance_ok st1 tok f st2 hf
      rw [e2, e1] at h
      exact writes_mem_append st.writes tok
        (computeBalance { st with txns := st.txns ++
          (match lookupClient st.clients tok with
           | some cid => [⟨cid, amt, "PURCHASE"⟩]
           | none => []) } tok) w h

theorem repairOne_writes (st : State) (tok : String) (f : Faults)
    (w : CacheWrite) (h : w ∈ (repairOne st tok f).writes) :
    w ∈ st.writes ∨ (w.key = RedisKeyPrefix ++ tok ∧ w.ttl = RedisCacheTTL) := by
  unfold repairOne at h
  cases hf : refreshBalance st tok f with
  | error e => rw [hf] at h; exact Or.inl h
  | ok st1 =>
    rw [hf] at h
    have e1 := refreshBalance_ok st tok f st1 hf
    rw [e1] at h
    exact writes_mem_append st.writes tok (computeBalance st tok) w h

/-- C8: every cache Set issued by a deduction, a top-up or a repair (any
write not already in the history) carries exactly the key
RedisKeyPrefix ++ identity and the fixed RedisCacheTTL; and the key
derivation is injective, so distinct identities can never collide on a
cache key. -/
theorem C8_cache_writes_prefixed_ttl (st : State) (tok : String) (amt : Int)
    (f : Faults) :
    (∀ w : CacheWrite, w ∈ (DeductTokens st tok f).2.writes →
      w ∈ st.writes ∨ (w.key = RedisKeyPrefix ++ tok ∧ w.ttl = RedisCacheTTL)) ∧
    (∀ w : CacheWrite, w ∈ (AddTokens st tok amt f).2.writes →
      w ∈ st.writes ∨ (w.key = RedisKeyPrefix ++ tok ∧ w.ttl = RedisCacheTTL)) ∧
    (∀ w : CacheWrite, w ∈ (repairOne st tok f).writes →
      w ∈ st.writes ∨ (w.key = RedisKeyPrefix ++ tok ∧ w.ttl = RedisCacheTTL)) ∧
    (∀ t1 t2 : String, RedisKeyPrefix ++ t1 = RedisKeyPrefix ++ t2 → t1 = t2) := by
  refine ⟨fun w h => DeductTokens_writes st tok f w h,
          fun w h => AddTokens_writes st tok amt f w h,
          fun w h => repairOne_writes st tok f w h,
          fun t1 t2 h => ?_⟩
  apply String.ext
  have hd := congrArg String.data h
  rw [String.data_append, String.data_append] at hd
  exact List.append_cancel_left hd

/-- C8 witness: the single write of a fault-free deduction at warmCacheSt
satisfies the key and TTL shape, and injectivity applied at equal keys. -/
theorem C8_cache_writes_prefixed_ttl_witness :
    ((⟨"token_balance:tok1", 4, RedisCacheTTL⟩ : CacheWrite) ∈
        warmCacheSt.writes ∨
      ((⟨"token_balance:tok1", 4, RedisCacheTTL⟩ : CacheWrite).key
          = RedisKeyPrefix ++ "tok1" ∧
       (⟨"token_balance:tok1", 4, RedisCacheTTL⟩ : CacheWrite).ttl
          = RedisCacheTTL)) ∧
    "t1" = "t1" :=
  ⟨(C8_cache_writes_prefixed_ttl warmCacheSt "tok1" 0 noFaults).1 _ (by decide),
   (C8_cache_writes_prefixed_ttl warmCacheSt "tok1" 0 noFaults).2.2.2
      "t1" "t1" rfl⟩

theorem computeBalance_append_txn (st : State) (tok : String) (cid : Nat)
    (t : Txn) (h : lookupClient st.clients tok = some cid)
    (hc : t.clientId = cid) :
    computeBalance { st with txns := st.txns ++ [t] } tok
      = computeBalance st tok + txnContribution t := by
  unfold computeBalance
  rw [h]
  simp [List.filter_append, hc]

/-- C9: AddTokens validates nothing about its amount: for any integer,
zero or negative included, a fault-free call on an existing client
succeeds, durably appends a PURCHASE row with exactly that amount, and
shifts the ledger-derived balance by the amount - so a negative amount
durably reduces the balance. -/
theorem C9_addtokens_unvalidated_amount (st : State) (tok : String)
    (amt : Int) (cid : Nat) (h : lookupClient st.clients tok = some cid) :
    (AddTokens st tok amt noFaults).1 = .ok () ∧
    (AddTokens st tok amt noFaults).2.txns
      = st.txns ++ [⟨cid, amt, "PURCHASE"⟩] ∧
    computeBalance (AddTokens st tok amt noFaults).2 tok
      = computeBalance st tok + amt := by
  have hrec : recordTransaction st tok amt "PURCHASE" noFaults.dbExecFail
      = .ok { st with txns := st.txns ++ [⟨cid, amt, "PURCHASE"⟩] } := by
    unfold recordTransaction noFaults
    rw [h]
    rfl
  unfold AddTokens
  rw [hrec]
  dsimp only
  cases hf : refreshBalance
      { st with txns := st.txns ++ [⟨cid, amt, "PURCHASE"⟩] } tok noFaults with
  | error e =>
    exfalso
    unfold refreshBalance noFaults updateBalanceInCache at hf
    simp at hf
  | ok st2 =>
    have e2 := refreshBalance_ok _ tok noFaults st2 hf
    have htx : st2.txns = st.txns ++ [⟨cid, amt, "PURCHASE"⟩] := by rw [e2]
    have hcl : st2.clients = st.clients := by rw [e2]
    refine ⟨rfl, htx, ?_⟩
    have hcb : computeBalance st2 tok
        = computeBalance
            { st with txns := st.txns ++ [⟨cid, amt, "PURCHASE"⟩] } tok := by
      apply computeBalance_congr
      · exact hcl
      · exact htx
    rw [hcb, computeBalance_append_txn st tok cid ⟨cid, amt, "PURCHASE"⟩ h rfl]
    simp [txnContribution]

/-- C9 witness: AddTokens of -5 for client tok1 succeeds, records a
PURCHASE of -5 and lowers the ledger-derived balance by 5. -/
theorem C9_addtokens_unvalidated_amount_witness :
    (AddTokens oneClientSt "tok1" (-5) noFaults).1 = .ok () ∧
    (AddTokens oneClientSt "tok1" (-5) noFaults).2.txns
      = oneClientSt.txns ++ [⟨1, -5, "PURCHASE"⟩] ∧
    computeBalance (AddTokens oneClientSt "tok1" (-5) noFaults).2 "tok1"
      = computeBalance oneClientSt "tok1" + (-5) :=
  C9_addtokens_unvalidated_amount oneClientSt "tok1" (-5) 1 rfl

/-- C10: whenever exactly one of the lat, lon arguments is nonzero, the
location filter in generateMeme rejects every catalog entry (both
disjuncts of the location condition are false), so the result is always
the empty Meme echoing the query and coordinates - whatever the query,
the random draws, and the distance function. -/
theorem C10_single_zero_coordinate_empty_meme
    (dist : Rat → Rat → Rat → Rat → Rat) (rid pick : Nat) (query : String)
    (lat lon : Rat)
    (h : (lat = 0 ∧ lon ≠ 0) ∨ (lat ≠ 0 ∧ lon = 0)) :
    generateMeme dist rid pick query lat lon
      = { id := 0, title := "", url := "", query := query,
          lat := lat, lon := lon } := by
  have hfalse : ∀ m : CatalogEntry,
      ((query == "" || containsSubstring m.title.toLower query.toLower) &&
       ((lat == 0 && lon == 0) ||
        (lat != 0 && lon != 0 &&
          decide (dist lat lon m.memeLat m.memeLon ≤ maxDistance)))) = false := by
    intro m
    rcases h with ⟨h0, hne⟩ | ⟨hne, h0⟩
    · subst h0
      have hl : (lon == 0) = false := by simpa using hne
      simp [hl]
    · subst h0
      have hl : (lat == 0) = false := by simpa using hne
      simp [hl]
  have hfil : (memeCatalog.filter (fun m =>
      (query == "" || containsSubstring m.title.toLower query.toLower) &&
      ((lat == 0 && lon == 0) ||
       (lat != 0 && lon != 0 &&
         decide (dist lat lon m.memeLat m.memeLon ≤ maxDistance))))) = [] :=
    List.filter_eq_nil_iff.mpr (fun m _ => by simp [hfalse m])
  unfold generateMeme
  rw [hfil]

/-- C10 witness: a query matching the first catalog title, lat 0 and
Sydney's longitude still produce the empty Meme. -/
theorem C10_single_zero_coordinate_empty_meme_witness :
    generateMeme (fun _ _ _ _ => 0) 7 3 "monday" 0 (1512093/10000)
      = { id := 0, title := "", url := "", query := "monday",
          lat := 0, lon := 1512093/10000 } :=
  C10_single_zero_coordinate_empty_meme (fun _ _ _ _ => 0) 7 3 "monday" 0
    (1512093/10000) (Or.inl ⟨rfl, by norm_num⟩)

end MaasService
